import Mathlib

/-
Verification of the enterprise-ai-agent-platform repository.

Shallow embedding of the backend (agent.py, main.py) and the MCP server
(server.py, db_utils.py, pdf_utils.py). Effectful operations (filesystem,
network, model backend, PDF/markdown libraries, SQLite I/O) are supplied as
oracle fields of explicit environment records; a Python operation that can
raise is embedded as an Except-valued oracle, and try/except blocks of the
source are embedded as explicit matches on that Except value.
-/

/-! ## Python string primitives -/

/-- Model of CPython str.replace scanning: left to right, non-overlapping;
each occurrence of the (non-empty) pattern is replaced and scanning resumes
after it. Fuel-based structural recursion; fuel = input length suffices
because each step consumes at least one character. -/
def pyReplaceAux (pat rep : List Char) : Nat → List Char → List Char
  | _, [] => []
  | 0, l => l
  | fuel + 1, c :: cs =>
    if !pat.isEmpty && pat.isPrefixOf (c :: cs) then
      rep ++ pyReplaceAux pat rep fuel (List.drop (pat.length - 1) cs)
    else
      c :: pyReplaceAux pat rep fuel cs

/-- Model of Python s.replace(pat, rep) for a non-empty pattern. -/
def pyReplace (s pat rep : String) : String :=
  ⟨pyReplaceAux pat.data rep.data s.data.length s.data⟩

/-- Substring occurrence test on character lists. -/
def listInfix (pat : List Char) : List Char → Bool
  | [] => pat.isEmpty
  | c :: cs => pat.isPrefixOf (c :: cs) || listInfix pat cs

/-- Model of the Python substring test pat in s. -/
def strContains (s pat : String) : Bool :=
  listInfix pat.data s.data

/-- Prefix test on strings via their character lists. -/
def strStartsWith (s pre : String) : Bool :=
  pre.data.isPrefixOf s.data

/-- Model of os.path.join(a, b) on POSIX for a single joined component:
an absolute second argument replaces the first. -/
def pathJoin (a b : String) : String :=
  if strStartsWith b "/" then b else a ++ "/" ++ b

/-- Python truthiness of an optional string (None and the empty string are
falsy). -/
def pyTruthy : Option String → Bool
  | none => false
  | some s => !(s == "")

/-! ## mcp-server/src/server.py: filename normalization -/

/-- Data directory of the MCP server (computed from the module path in the
source; modeled as a fixed path string). -/
def DATA_DIR : String := "data"

/-- Normalization performed by save_proposal (server.py line 192):
filename.replace("Proposal_for_", "").replace(".md", "").replace(".pdf", ""). -/
def save_proposal_base (filename : String) : String :=
  pyReplace (pyReplace (pyReplace filename "Proposal_for_" "") ".md" "") ".pdf" ""

/-- Normalization performed by convert_to_pdf (server.py line 222), written
identically in the source. -/
def convert_to_pdf_base (filename : String) : String :=
  pyReplace (pyReplace (pyReplace filename "Proposal_for_" "") ".md" "") ".pdf" ""

/-- Disk filename that save_proposal writes (server.py line 193). -/
def save_disk_filename (filename : String) : String :=
  "Proposal_for_" ++ save_proposal_base filename ++ ".md"

/-- Markdown path that convert_to_pdf looks up (server.py line 223). -/
def convert_md_path (filename : String) : String :=
  pathJoin DATA_DIR ("Proposal_for_" ++ convert_to_pdf_base filename ++ ".md")

/-- Condition of the early-return branch of convert_to_pdf (server.py
line 225): the markdown file is absent. -/
def convert_md_not_found (fileExists : String → Bool) (filename : String) : Bool :=
  !(fileExists (convert_md_path filename))

/-- Filesystem-existence predicate visible after a successful disk write by
save_proposal(filename, ·): the written markdown path now exists, everything
else is as before. -/
def fsAfterSave (fileExists : String → Bool) (filename : String) : String → Bool :=
  fun p => p == pathJoin DATA_DIR (save_disk_filename filename) || fileExists p

/-! ## mcp-server/src/db_utils.py -/

/-- Row of the projects table. -/
structure DBRecord where
  id : Nat
  filename : String
  status : String
  proposal_content : Option String
  deriving DecidableEq, Repr

/-- Effect of one SQL UPDATE on one matched row: status is always set;
proposal_content only when a truthy proposal is bound (both UPDATE statements
of update_status set both columns exactly when proposal is truthy). -/
def applyStatus (r : DBRecord) (status : String) (proposal : Option String) : DBRecord :=
  if pyTruthy proposal then { r with status := status, proposal_content := proposal }
  else { r with status := status }

/-- Accumulator for ORDER BY id DESC LIMIT 1: keep the record with the
largest id. -/
def maxByIdAux : DBRecord → List DBRecord → DBRecord
  | b, [] => b
  | b, r :: rs => maxByIdAux (if b.id < r.id then r else b) rs

/-- Model of SELECT filename FROM projects WHERE status = PROCESSING
ORDER BY id DESC LIMIT 1 (db_utils.py line 110), returning the whole row. -/
def selectLatestProcessing (db : List DBRecord) : Option DBRecord :=
  match db.filter (fun r => r.status == "PROCESSING") with
  | [] => none
  | r :: rs => some (maxByIdAux r rs)

/-- Model of update_status (db_utils.py lines 76-129). The database is the
ordered list of rows; the sqlite3 cursor rowcount is an Int: an UPDATE sets
it to the number of matched rows, a SELECT sets it to -1 (DB-API behavior of
sqlite3). Returns the new table together with the returned message. -/
def update_status (db : List DBRecord) (filename status : String)
    (proposal : Option String) : List DBRecord × String :=
  let db1 := db.map (fun r => if r.filename == filename then applyStatus r status proposal else r)
  let rows_affected : Int := (db.filter (fun r => r.filename == filename)).length
  let step2 : List DBRecord × Int :=
    if rows_affected == 0 && status == "COMPLETED" then
      match selectLatestProcessing db1 with
      | some fb =>
          if pyTruthy proposal then
            (db1.map (fun r => if r.filename == fb.filename then applyStatus r status proposal else r),
             ((db1.filter (fun r => r.filename == fb.filename)).length : Int))
          else
            (db1, (-1 : Int))
      | none => (db1, rows_affected)
    else (db1, rows_affected)
  if step2.2 == 0 then
    (step2.1, "Warning: Database update failed. Project \x27" ++ filename ++ "\x27 not found.")
  else
    (step2.1, "Database updated successfully.")

/-! ## mcp-server/src/server.py and pdf_utils.py: the tools

Each effectful operation a tool performs is an oracle field; operations the
Python code can see raise are Except-valued, and each try/except of the
source becomes a match on that value. A tool whose Lean type is plain String
therefore provably cannot propagate an exception: every raising operation it
performs is matched and converted to result text. -/

/-- One Tavily search result (fields used by web_search). -/
structure SearchResult where
  title : String
  url : String
  content : String
  deriving DecidableEq, Repr

/-- Oracles for the effects performed by the MCP tools. Except-valued fields
model Python calls that may raise (the error value is the exception text). -/
structure ToolEnv where
  /-- os.path.exists. -/
  fileExists : String → Bool
  /-- pymupdf4llm.to_markdown: markdown text, or raises. -/
  pdfParse : String → Except String String
  /-- add_project database registration: unit, or raises. -/
  addProject : String → Except String Unit
  /-- TAVILY_API_KEY environment value. -/
  tavilyKey : Option String
  /-- tavily.search: result list, or raises. -/
  search : String → Except String (List SearchResult)
  /-- open(path, "w") plus write: unit, or raises IOError. -/
  diskWrite : String → String → Except String Unit
  /-- open(path, "r") plus read: file text, or raises. -/
  readFile : String → Except String String
  /-- The markdown pre-processing, link rewriting and markdown.markdown HTML
  rendering pipeline (pure text transformations and a library call, none of
  which any claim depends on): transformed HTML, or raises. -/
  render : String → Except String String
  /-- pisa.CreatePDF: the err counter of the returned status, or raises. -/
  pisaCreate : String → Except String Nat
  /-- Current projects table, read by update_status inside save_proposal. -/
  db : List DBRecord

/-- Model of parse_pdf_to_markdown (pdf_utils.py lines 11-30): missing file
and parse exceptions are returned as error text. -/
def parse_pdf_to_markdown (env : ToolEnv) (file_path : String) : String :=
  if env.fileExists file_path = false then
    "Error: File not found at " ++ file_path
  else
    match env.pdfParse file_path with
    | .ok md_text => md_text
    | .error e => "Error parsing PDF: " ++ e

/-- Model of the read_file tool (server.py lines 118-135): the DB
registration is wrapped in try/except with the outcome discarded, then the
PDF is parsed. -/
def read_file (env : ToolEnv) (filename : String) : String :=
  let file_path := pathJoin DATA_DIR filename
  match env.addProject filename with
  | .ok _ => parse_pdf_to_markdown env file_path
  | .error _ => parse_pdf_to_markdown env file_path

/-- Result text block for one search hit (server.py lines 166-170). -/
def searchEntry (r : SearchResult) : String :=
  "SOURCE_TITLE: " ++ r.title ++ "\n" ++ "SOURCE_URL: " ++ r.url ++ "\n" ++
    "CONTENT: " ++ r.content ++ "\n"

/-- Model of the web_search tool (server.py lines 139-177): a missing or
falsy API key and a raising search call both become result text. -/
def web_search (env : ToolEnv) (query : String) : String :=
  if pyTruthy env.tavilyKey = false then
    "Error: TAVILY_API_KEY is missing or invalid."
  else
    match env.search query with
    | .error e => "Search Error: " ++ e
    | .ok results =>
        "Found " ++ toString results.length ++ " results.\n\n" ++
          String.intercalate "\n---\n" (results.map searchEntry)

/-- Model of the save_proposal tool (server.py lines 181-208): a raising
disk write becomes result text (the source catches IOError, the one
exception class its write can raise); on success update_status runs and its
message is appended. -/
def save_proposal (env : ToolEnv) (filename proposal_text : String) : String :=
  let disk_filename := save_disk_filename filename
  let save_path := pathJoin DATA_DIR disk_filename
  match env.diskWrite save_path proposal_text with
  | .error e => "Error saving file to disk: " ++ e
  | .ok _ =>
      let db_msg := (update_status env.db filename "COMPLETED" (some proposal_text)).2
      "Saved proposal to " ++ disk_filename ++ ". " ++ db_msg

/-- Body of the try block of convert_to_pdf (server.py lines 229-304): read
the markdown, render it, create the PDF; a nonzero pisa err counter is
returned as error text, success returns the download URL. -/
def convertBody (env : ToolEnv) (md_path base_name : String) : Except String String := do
  let md_text ← env.readFile md_path
  let full_html ← env.render md_text
  let errCount ← env.pisaCreate full_html
  if errCount ≠ 0 then
    pure ("Error generating PDF: " ++ toString errCount)
  else
    pure ("http://localhost:8001/download/" ++ ("Proposal_for_" ++ base_name ++ ".pdf"))

/-- Model of the convert_to_pdf tool (server.py lines 212-308): a missing
markdown file returns error text before the try block; any exception inside
the try block is caught by the except Exception handler and returned as
text. -/
def convert_to_pdf (env : ToolEnv) (filename : String) : String :=
  let base_name := convert_to_pdf_base filename
  let md_path := convert_md_path filename
  if env.fileExists md_path = false then
    "Error: Markdown file " ++ md_path ++ " not found. Ensure save_proposal was called first."
  else
    match convertBody env md_path base_name with
    | .ok out => out
    | .error e => "Unexpected Error during PDF conversion: " ++ e

/-! ## backend/agent.py: message model and the LangGraph agent -/

/-- One requested tool call of an assistant message (arguments kept as their
serialized form; no claim inspects them). -/
structure ToolCall where
  id : String
  name : String
  args : String
  deriving DecidableEq, Repr

/-- LangChain message variants as stored in the MessagesState history. -/
inductive Msg
  | system (content : String)
  | user (content : String)
  | assistant (content : String) (tool_calls : List ToolCall)
  | tool (call_id : String) (content : String)
  deriving DecidableEq, Repr

/-- A model (AIMessage) response: streamed text plus requested tool calls. -/
structure AIMessage where
  content : String
  tool_calls : List ToolCall
  deriving DecidableEq, Repr

/-- The isinstance(m, SystemMessage) test. -/
def isSystemMessage : Msg → Bool
  | .system _ => true
  | _ => false

/-- SYSTEM_PROMPT of agent.py (lines 40-91). -/
def SYSTEM_PROMPT : String :=
  "You are an expert Enterprise AI Analyst.\n" ++
  "\n" ++
  "### GLOBAL RULES (STRICT):\n" ++
  "1. **ONE WORKFLOW ONLY:** Never mix Workflow 1 and Workflow 2.\n" ++
  "2. **MARKDOWN LINKS:** When citing sources or providing downloads, you MUST use `[Title](URL)` format. Do not write raw URLs.\n" ++
  "3. **NO CHATTER:** Do not narrate your background tasks. Just execute them.\n" ++
  "4. **ALWAYS SEARCH FRESH:** Do NOT rely on your internal knowledge or previous conversation memory for facts. \n" ++
  "   * **Rule:** If the user asks a question or uploads a file, you MUST call `web_search` again to get the latest real-time data.\n" ++
  "   * *Reason:* The user wants up-to-the-minute market info.\n" ++
  "\n" ++
  "### WORKFLOW 1: DOCUMENT ANALYSIS (RFP)\n" ++
  "**Trigger:** User asks to read/process a file.\n" ++
  "**Steps:**\n" ++
  "1.  **READ:** Call `read_file(filename)`.\n" ++
  "2.  **RESEARCH:** Call `web_search(query)` to find technical requirements, competitor info or compliance standards.\n" ++
  "3.  **DRAFT PROPOSAL (Internal Step):**\n" ++
  "    * Synthesize the \"Raw PDF Content\" + \"Search Results\".\n" ++
  "    * **CREATIVITY INSTRUCTION:** Do not just list facts. Write a persuasive, strategic narrative tailored to the client\x27s needs.\n" ++
  "    * **VISUALS:** You MUST include at least one Markdown Table (e.g., \"Competitor Comparison\", \"Risk Matrix\", or \"Timeline\").\n" ++
  "    * **MANDATORY STRUCTURE:**\n" ++
  "        1. `# Executive Summary` (Strategic overview & Value Proposition)\n" ++
  "        2. `# Proposed Solution` (Detailed methodology with H2 headers)\n" ++
  "        3. `# Technical Implementation` (Architecture & Tech Stack)\n" ++
  "        4. `# Project Timeline` (Use a Markdown Table here)\n" ++
  "        5. `## References` (MANDATORY: List all research URLs)\n" ++
  "           - Format: `- [Title](URL)`\n" ++
  "           - If you skip this, the proposal is invalid.\n" ++
  "    * **INTERNAL ONLY:** Do NOT output this draft to the user. This text exists ONLY to be passed into the `save_proposal` tool.\n" ++
  "4.  **SAVE:** Call `save_proposal`.\n" ++
  "    * `filename`: Use the ORIGINAL input filename (e.g. \x27test.pdf\x27).\n" ++
  "    * `proposal_text`: The full Markdown content.\n" ++
  "5.  **CONVERT:** Call `convert_to_pdf(filename)`.\n" ++
  "\n" ++
  "**OUTPUT RULE for Workflow 1:** - Do **NOT** output the full proposal text in the chat window. \n" ++
  "- Only show a brief summary (3-4 bullets) and confirm saving.\n" ++
  "- **CRITICAL:** End with the downloadable link exactly like this:\n" ++
  "  \"Proposal generated! [Download PDF](THE_URL_FROM_THE_TOOL)\"\n" ++
  "\n" ++
  "### WORKFLOW 2: PURE RESEARCH\n" ++
  "**Trigger:** User asks a general question.\n" ++
  "**Steps:**\n" ++
  "1.  **SEARCH:** Call `web_search` (Mandatory step).\n" ++
  "2.  **ANSWER:** Synthesize findings and provide the detailed answer.\n" ++
  "    * *Requirement:* Use Markdown tables where needed.\n" ++
  "\n" ++
  "**OUTPUT RULE for Workflow 2:**\n" ++
  "- Provide the full answer.\n" ++
  "- **MANDATORY:** End with a \"Sources\" section using MARKDOWN LINKS:\n" ++
  "  \"### Sources\n" ++
  "   - [Title 1](http://url-1.com)\n" ++
  "   - [Title 2](http://url-2.com)\"\n"

/-- History the call_model node sends to the model (agent.py lines 136-139):
the system prompt is prepended exactly when the state is empty or its first
element is not a SystemMessage. This prepended list is a local value of the
node. -/
def sentMessages (messages : List Msg) : List Msg :=
  match messages with
  | [] => [Msg.system SYSTEM_PROMPT]
  | m :: rest =>
      if isSystemMessage m then m :: rest
      else Msg.system SYSTEM_PROMPT :: m :: rest

/-- Model of the call_model node (agent.py lines 135-142). Its return value
is the LangGraph state delta merged by the add_messages reducer: only the
model response is appended to the persisted state; the locally prepended
system message is not part of the delta. -/
def call_model (llm : List Msg → AIMessage) (state : List Msg) : List Msg :=
  let messages := sentMessages state
  let response := llm messages
  [Msg.assistant response.content response.tool_calls]

/-- State delta of the prebuilt ToolNode: one ToolMessage per requested
call, in issuance order. -/
def toolNodeDelta (exec : ToolCall → String) (calls : List ToolCall) : List Msg :=
  calls.map (fun tc => Msg.tool tc.id (exec tc))

/-- Persisted histories reachable for one session thread under the compiled
graph with the MemorySaver checkpointer: the empty initial history, then
appends by the three delta producers (the user input message merged at turn
start, the agent node delta, the ToolNode delta). The rules over-approximate
the graph scheduling (any step order is admitted), which is sound for
invariants over all reachable histories. -/
inductive StoredReachable : List Msg → Prop
  | init : StoredReachable []
  | userStep (s : List Msg) (u : String) :
      StoredReachable s → StoredReachable (s ++ [Msg.user u])
  | agentStep (s : List Msg) (llm : List Msg → AIMessage) :
      StoredReachable s → StoredReachable (s ++ call_model llm s)
  | toolStep (s : List Msg) (exec : ToolCall → String) (calls : List ToolCall) :
      StoredReachable s → StoredReachable (s ++ toolNodeDelta exec calls)

/-- One turn of the compiled graph executed with bounded fuel, starting at
the agent node (the START edge). The i-th model response of the turn is
abstracted as responses i; tools_condition routes to the ToolNode exactly
when the response carries tool calls (agent.py lines 150-152), and the
ToolNode edge returns to the agent node. Returns none when fuel is exhausted
before the normal exit. -/
def agentLoop (responses : Nat → AIMessage) (exec : ToolCall → String) :
    Nat → Nat → List Msg → Option (List Msg)
  | 0, _, _ => none
  | fuel + 1, i, state =>
      let response := responses i
      let state1 := state ++ [Msg.assistant response.content response.tool_calls]
      if response.tool_calls.isEmpty then some state1
      else agentLoop responses exec fuel (i + 1) (state1 ++ toolNodeDelta exec response.tool_calls)

/-- History produced by n consecutive tool-calling rounds, starting from
response index i: each round appends the assistant tool-call message and its
tool results. -/
def roundsHistory (responses : Nat → AIMessage) (exec : ToolCall → String) :
    Nat → Nat → List Msg
  | _, 0 => []
  | i, n + 1 =>
      [Msg.assistant (responses i).content (responses i).tool_calls] ++
        (toolNodeDelta exec (responses i).tool_calls ++ roundsHistory responses exec (i + 1) n)

/-! ## backend/agent.py: initialization and startup -/

/-- Tool definition obtained from the MCP client at discovery. -/
structure ToolDefn where
  name : String
  deriving DecidableEq, Repr

/-- The compiled LangGraph (what initialize_agent caches): the graph is
built from the discovered tools. -/
structure CompiledGraph where
  tools : List ToolDefn
  deriving DecidableEq, Repr

/-- Model of initialize_agent (agent.py lines 110-161). Takes the current
module-level cache and the outcome of client.get_tools() (Except-valued: an
unreachable tool provider raises). Returns the graph together with the new
cache value, or propagates the discovery error: the except branch logs and
re-raises. -/
def initialize_agent (cache : Option CompiledGraph)
    (get_tools : Except String (List ToolDefn)) :
    Except String (CompiledGraph × Option CompiledGraph) :=
  match cache with
  | some g => .ok (g, some g)
  | none =>
      match get_tools with
      | .error e => .error e
      | .ok tools =>
          let graph : CompiledGraph := { tools := tools }
          .ok (graph, some graph)

/-- Model of the lifespan startup hook (main.py lines 40-48): it awaits
initialize_agent before yielding, so a raising initialization aborts
application startup. Returns the cache left behind on success. -/
def lifespan_startup (cache : Option CompiledGraph)
    (get_tools : Except String (List ToolDefn)) :
    Except String (Option CompiledGraph) :=
  match initialize_agent cache get_tools with
  | .error e => .error e
  | .ok p => .ok p.2

/-! ## backend/main.py: the caller-facing stream -/

/-- One element of a streamed chunk content list (the Gemini compatibility
branch of main.py lines 133-138). -/
inductive ContentPart
  | textPart (s : String)
  | strPart (s : String)
  | otherPart
  deriving DecidableEq, Repr

/-- Content extracted from a streamed chunk: a plain string, a list of
parts, or anything else (which contributes no text). -/
inductive ChunkContent
  | str (s : String)
  | parts (ps : List ContentPart)
  | other
  deriving DecidableEq, Repr

/-- Input events observed from graph.astream_events (the event kinds the
generator branches on; every other kind is ignored). none in
chatModelStream models a chunk missing from the event data. -/
inductive GraphEvent
  | chatModelStream (chunk : Option ChunkContent)
  | toolStart (name : String)
  | otherEvent
  deriving DecidableEq, Repr

/-- One line of the newline-delimited stream: serialized as
json.dumps of an object with exactly these two fields, followed by a
newline character. -/
structure NDJsonLine where
  type : String
  content : String
  deriving DecidableEq, Repr

/-- Text contribution of one content part (main.py lines 134-138). -/
def flattenPart : ContentPart → String
  | .textPart s => s
  | .strPart s => s
  | .otherPart => ""

/-- The final_text flattening (main.py lines 131-140). -/
def flattenContent : ChunkContent → String
  | .str s => s
  | .parts ps => String.join (ps.map flattenPart)
  | .other => ""

/-- Lines the generator emits for one input event (main.py lines 115-156):
an agent line when the flattened text is non-empty, a tool line when the
tool name is truthy and not underscore-prefixed, nothing otherwise. -/
def eventLines : GraphEvent → List NDJsonLine
  | .chatModelStream none => []
  | .chatModelStream (some chunk) =>
      let final_text := flattenContent chunk
      if final_text == "" then [] else [{ type := "agent", content := final_text }]
  | .toolStart tool_name =>
      if !(tool_name == "") && !(strStartsWith tool_name "_") then
        [{ type := "tool", content := "Accessed Tool: " ++ tool_name }]
      else []
  | .otherEvent => []

/-- Model of event_generator (main.py lines 101-160): the events iterated
before the stream ends, then, when the try block raised, exactly one error
line from the except handler, after which the generator returns. -/
def event_generator (events : List GraphEvent) (exn : Option String) : List NDJsonLine :=
  (events.map eventLines).flatten ++
    (match exn with
     | some e => [{ type := "error", content := e }]
     | none => [])

/-! ## backend/main.py: request validation and the chat endpoint -/

/-- A JSON value of a request field (the discriminations pydantic needs). -/
inductive JsonVal
  | str (s : String)
  | num (n : Int)
  | null
  | other
  deriving DecidableEq, Repr

/-- Raw body of a POST /chat request: each declared field either absent or
some JSON value. -/
structure RawChatRequest where
  message : Option JsonVal
  session_id : Option JsonVal
  deriving DecidableEq, Repr

/-- The validated ChatRequest model (main.py lines 66-68). -/
structure ChatRequest where
  message : String
  session_id : String
  deriving DecidableEq, Repr

/-- Modelled from the spec: pydantic validation of the ChatRequest
declaration message: str; session_id: str = "default_session" (the
validation itself happens inside FastAPI/pydantic, outside this repository):
a declared str field requires a JSON string when present; message is
required; session_id defaults to "default_session" when absent. No other
constraint is declared, so any string value, the empty string included, is
accepted. -/
def validateChatRequest (r : RawChatRequest) : Except String ChatRequest :=
  match r.message with
  | none => .error "message: Field required"
  | some (.str m) =>
      match r.session_id with
      | none => .ok { message := m, session_id := "default_session" }
      | some (.str s) => .ok { message := m, session_id := s }
      | some _ => .error "session_id: Input should be a valid string"
  | some _ => .error "message: Input should be a valid string"

/-- Run-state of a session as the specification describes it (idle or
running a turn). The backend code stores no such flag; the type exists so
that statements about concurrent turns can be phrased. -/
inductive RunState
  | idle
  | running
  deriving DecidableEq, Repr

/-- Outcome of a POST /chat request. sessionBusy is the rejection the
specification requires for a concurrently running session; no code path of
main.py produces it. -/
inductive ChatOutcome
  | validationError (msg : String)
  | sessionBusy
  | stream (lines : List NDJsonLine)
  deriving DecidableEq, Repr

/-- Model of the chat endpoint (main.py lines 95-162): after validation the
handler unconditionally returns the streaming response built by
event_generator. It consults no per-session run state and acquires no
lease; the runState argument (what the spec calls the run-state of each
session) is ignored by the code. -/
def chat_endpoint (raw : RawChatRequest) (runState : String → RunState)
    (events : List GraphEvent) (exn : Option String) : ChatOutcome :=
  match validateChatRequest raw with
  | .error e => .validationError e
  | .ok _req => .stream (event_generator events exn)

/-! ## backend/main.py: the download endpoint -/

/-- Outcome of GET /download/{filename} (the HTTP statuses raised plus the
served path, given as its path components: the data directory components
followed by the requested name). -/
inductive DownloadOutcome
  | badRequest
  | notFound
  | file (path : List String)
  deriving DecidableEq, Repr

/-- Model of download_file (main.py lines 165-182): the traversal check on
the raw filename runs before any filesystem access; then existence decides
404 versus serving os.path.join(MCP_DATA_DIR, filename), modeled as the
component list dataDir ++ [filename]. -/
def download_file (dataDir : List String) (pathExists : List String → Bool)
    (filename : String) : DownloadOutcome :=
  if strContains filename ".." || strContains filename "/" then .badRequest
  else
    let file_path := dataDir ++ [filename]
    if pathExists file_path = false then .notFound
    else .file file_path

/-- POSIX resolution of a component path: a dot component is dropped, a
dot-dot component removes the previous component, others accumulate. -/
def resolveComponents (cs : List String) : List String :=
  cs.foldl (fun acc c => if c = "." then acc else if c = ".." then acc.dropLast else acc ++ [c]) []

/-! ## C7: unreachable tool provider fails startup -/

/-- C7. If tool discovery raises at startup (no configured tool-provider
endpoint reachable), initialize_agent re-raises the error rather than
swallowing it, lifespan propagates it so the process fails to start, and no
compiled graph is produced or cached. -/
theorem startup_fails_without_tool_provider (e : String) :
    initialize_agent none (.error e) = .error e ∧
    lifespan_startup none (.error e) = .error e :=
  ⟨rfl, rfl⟩

/-! ## C4: no per-session mutual exclusion exists -/

/-- C4 counterexample. With the session of the request already running a
turn, the chat endpoint still starts streaming; it does not fail with a
busy-session rejection, refuting the claim that a second turn on a running
session always fails with SessionBusyError. -/
theorem busy_session_still_started_counterexample :
    chat_endpoint { message := some (.str "hi"), session_id := some (.str "s1") }
        (fun _ => RunState.running) [] none = .stream [] ∧
    chat_endpoint { message := some (.str "hi"), session_id := some (.str "s1") }
        (fun _ => RunState.running) [] none ≠ .sessionBusy := by
  constructor
  · rfl
  · decide

/-- C4 amended. The backend acquires no per-session lease: the outcome of a
validated chat request is independent of any run state of any session, and
no request is ever rejected as session-busy; nothing serializes two turns on
the same session id. -/
theorem chat_turns_never_rejected_as_busy (raw : RawChatRequest)
    (rs1 rs2 : String → RunState) (events : List GraphEvent) (exn : Option String) :
    chat_endpoint raw rs1 events exn = chat_endpoint raw rs2 events exn ∧
    chat_endpoint raw rs1 events exn ≠ .sessionBusy := by
  refine ⟨rfl, ?_⟩
  unfold chat_endpoint
  cases validateChatRequest raw <;> simp

/-! ## C8: request validation -/

/-- C8 counterexample. A request whose session_id is the empty string passes
validation (pydantic enforces only that the field is a string), refuting the
claim that an empty session id is rejected. -/
theorem empty_session_id_accepted_counterexample :
    validateChatRequest { message := some (.str "hi"), session_id := some (.str "") } =
      .ok { message := "hi", session_id := "" } :=
  rfl

/-- C8 amended. A chat request missing the message field is rejected as a
validation error before the handler runs, independently of every session
state and stream oracle; a present session id is accepted exactly when it is
a JSON string, with no constraint on its content (the empty string is
accepted), and an absent session id defaults to "default_session". -/
theorem chat_request_validation :
    (∀ (raw : RawChatRequest) (rs : String → RunState) (events : List GraphEvent)
        (exn : Option String), raw.message = none →
        chat_endpoint raw rs events exn = .validationError "message: Field required") ∧
    (∀ m s : String,
        validateChatRequest { message := some (.str m), session_id := some (.str s) } =
          .ok { message := m, session_id := s }) ∧
    (∀ m : String,
        validateChatRequest { message := some (.str m), session_id := none } =
          .ok { message := m, session_id := "default_session" }) ∧
    (∀ (m : String) (v : JsonVal), (∀ s, v ≠ .str s) →
        validateChatRequest { message := some (.str m), session_id := some v } =
          .error "session_id: Input should be a valid string") := by
  refine ⟨?_, fun m s => rfl, fun m => rfl, ?_⟩
  · intro raw rs events exn hm
    unfold chat_endpoint validateChatRequest
    rw [hm]
  · intro m v hv
    unfold validateChatRequest
    cases v with
    | str s => exact absurd rfl (hv s)
    | num n => rfl
    | null => rfl
    | other => rfl

/-- C8 witness: the missing-message rejection and the non-string session id
rejection at concrete inputs. -/
theorem chat_request_validation_witness :
    chat_endpoint { message := none, session_id := none } (fun _ => RunState.idle) [] none =
      .validationError "message: Field required" ∧
    validateChatRequest { message := some (.str "hi"), session_id := some .null } =
      .error "session_id: Input should be a valid string" :=
  ⟨chat_request_validation.1 _ _ _ _ rfl,
   chat_request_validation.2.2.2 "hi" .null (fun s h => JsonVal.noConfusion h)⟩

/-! ## C9: filename normalization of save_proposal and convert_to_pdf -/

/-- C9 counterexample. For the input filename ".m.mdd", save_proposal
reports the disk filename "Proposal_for_.md.md"; re-normalizing that
reported name yields a different base than the original input (so the
normalization is not idempotent), and calling convert_to_pdf with the
reported disk filename right after the save takes the markdown-not-found
branch. -/
theorem normalization_not_idempotent_counterexample :
    save_disk_filename ".m.mdd" = "Proposal_for_.md.md" ∧
    save_proposal_base "Proposal_for_.md.md" ≠ save_proposal_base ".m.mdd" ∧
    convert_md_not_found (fsAfterSave (fun _ => false) ".m.mdd") "Proposal_for_.md.md" = true := by
  refine ⟨by decide, by decide, by decide⟩

/-- C9 amended. For the same filename argument, save_proposal and
convert_to_pdf compute the identical normalized base name and the identical
markdown path, so after a successful save_proposal(f, _) a convert_to_pdf
call with the same f never takes the markdown-not-found branch. (Calling it
with the reported disk filename can fail, and the normalization is not
idempotent: see the counterexample.) -/
theorem proposal_name_normalization_agreement (f : String) (fileExists : String → Bool) :
    convert_to_pdf_base f = save_proposal_base f ∧
    convert_md_path f = pathJoin DATA_DIR (save_disk_filename f) ∧
    convert_md_not_found (fsAfterSave fileExists f) f = false := by
  refine ⟨rfl, rfl, ?_⟩
  have h : convert_md_path f = pathJoin DATA_DIR (save_disk_filename f) := rfl
  simp [convert_md_not_found, fsAfterSave, h]

/-! ## C5: update_status fallback -/

theorem maxByIdAux_mem (b : DBRecord) (l : List DBRecord) : maxByIdAux b l ∈ b :: l := by
  induction l generalizing b with
  | nil => simp [maxByIdAux]
  | cons r rs ih =>
      have h := ih (if b.id < r.id then r else b)
      rcases List.mem_cons.mp h with h1 | h1
      · rw [maxByIdAux, h1]
        split <;> simp
      · simp [maxByIdAux, List.mem_cons_of_mem, h1]

theorem le_maxByIdAux (b : DBRecord) (l : List DBRecord) :
    ∀ x ∈ b :: l, x.id ≤ (maxByIdAux b l).id := by
  induction l generalizing b with
  | nil =>
      intro x hx
      rw [List.mem_singleton] at hx
      simp [maxByIdAux, hx]
  | cons r rs ih =>
      intro x hx
      have hb : b.id ≤ (if b.id < r.id then r else b).id := by split <;> omega
      have hr : r.id ≤ (if b.id < r.id then r else b).id := by split <;> omega
      have hself := ih (if b.id < r.id then r else b) _ (List.mem_cons_self _ _)
      rcases List.mem_cons.mp hx with rfl | hx1
      · exact le_trans hb (by rw [maxByIdAux]; exact hself)
      rcases List.mem_cons.mp hx1 with rfl | hx2
      · exact le_trans hr (by rw [maxByIdAux]; exact hself)
      · rw [maxByIdAux]
        exact ih _ x (List.mem_cons_of_mem _ hx2)

/-- What the ORDER BY id DESC LIMIT 1 selection returns: a PROCESSING record
of the table whose id is maximal among PROCESSING records. -/
theorem selectLatestProcessing_spec (db : List DBRecord) (fb : DBRecord)
    (h : selectLatestProcessing db = some fb) :
    fb ∈ db ∧ fb.status = "PROCESSING" ∧
      ∀ r ∈ db, r.status = "PROCESSING" → r.id ≤ fb.id := by
  unfold selectLatestProcessing at h
  cases hf : db.filter (fun r => r.status == "PROCESSING") with
  | nil => rw [hf] at h; cases h
  | cons r rs =>
      rw [hf] at h
      injection h with h
      have hmem : fb ∈ r :: rs := h ▸ maxByIdAux_mem r rs
      have hmemf : fb ∈ db.filter (fun r => r.status == "PROCESSING") := by
        rw [hf]; exact hmem
      have hin := List.mem_filter.mp hmemf
      refine ⟨hin.1, by simpa using hin.2, ?_⟩
      intro x hx hxs
      have hxf : x ∈ db.filter (fun r => r.status == "PROCESSING") :=
        List.mem_filter.mpr ⟨hx, by simp [hxs]⟩
      rw [hf] at hxf
      exact h ▸ le_maxByIdAux r rs x hxf

/-- C5 counterexample. With no record matching the given filename, status
"COMPLETED" and no proposal argument, the fallback SELECT finds the latest
PROCESSING record but, the proposal being falsy, executes no UPDATE; the
cursor rowcount is then the -1 of the SELECT, so the function reports
success although no row was updated (the table is returned unchanged),
refuting both the claimed fallback update and the claimed
success-iff-updated message. -/
def c5row : DBRecord :=
  { id := 1, filename := "a.pdf", status := "PROCESSING", proposal_content := none }

theorem update_status_false_success_counterexample :
    update_status [c5row] "b.pdf" "COMPLETED" none =
      ([c5row], "Database updated successfully.") := by
  decide

/-- C5 amended. When update_status is called with a truthy proposal and
status "COMPLETED", the exact-filename update matches no record, and a
PROCESSING record exists, the function updates exactly the records carrying
the filename of the most recent PROCESSING record (the one with the highest
id) and reports success. (With a falsy proposal the fallback updates nothing
yet still reports success: see the counterexample.) -/
theorem update_status_fallback_truthy_proposal
    (db : List DBRecord) (filename s : String) (fb : DBRecord)
    (hnomatch : ∀ r ∈ db, r.filename ≠ filename)
    (hsel : selectLatestProcessing db = some fb)
    (hs : s ≠ "") :
    update_status db filename "COMPLETED" (some s) =
      (db.map (fun r => if r.filename == fb.filename then
          { r with status := "COMPLETED", proposal_content := some s } else r),
       "Database updated successfully.") ∧
    fb ∈ db ∧ fb.status = "PROCESSING" ∧
      ∀ r ∈ db, r.status = "PROCESSING" → r.id ≤ fb.id := by
  have hspec := selectLatestProcessing_spec db fb hsel
  have hsbeq : (s == "") = false := beq_eq_false_iff_ne.mpr hs
  have htruthy : pyTruthy (some s) = true := by simp [pyTruthy, hsbeq]
  have hfilter : db.filter (fun r => r.filename == filename) = [] :=
    List.filter_eq_nil_iff.mpr (fun r hr => by simp [hnomatch r hr])
  have hmap : db.map (fun r => if r.filename == filename then
      applyStatus r "COMPLETED" (some s) else r) = db := by
    have : ∀ r ∈ db, (if r.filename == filename then
        applyStatus r "COMPLETED" (some s) else r) = id r := by
      intro r hr
      simp [hnomatch r hr]
    rw [List.map_congr_left this, List.map_id]
  have happly : ∀ r : DBRecord, applyStatus r "COMPLETED" (some s) =
      { r with status := "COMPLETED", proposal_content := some s } := by
    intro r
    simp [applyStatus, htruthy]
  have hcnt : 0 < (db.filter (fun r => r.filename == fb.filename)).length :=
    List.length_pos_of_mem (List.mem_filter.mpr ⟨hspec.1, by simp⟩)
  have hne : (((db.filter (fun r => r.filename == fb.filename)).length : Int) == 0) = false := by
    rw [beq_eq_false_iff_ne]
    omega
  refine ⟨?_, hspec⟩
  simp only [update_status]
  rw [hfilter, hmap, hsel]
  have hcond : ((↑(List.length ([] : List DBRecord)) : Int) == 0 &&
      "COMPLETED" == "COMPLETED") = true := by decide
  rw [if_pos hcond]
  simp only []
  rw [if_pos htruthy]
  have hnot : ¬ ((↑(List.filter (fun r => r.filename == fb.filename) db).length == (0 : Int))
      = true) := by
    rw [hne]
    decide
  rw [if_neg hnot]
  rw [List.map_congr_left (fun r _hr => by rw [happly r])]

def c5rowDone : DBRecord :=
  { id := 1, filename := "a.pdf", status := "COMPLETED", proposal_content := some "p" }

/-- C5 witness: the fallback at a concrete table with a truthy proposal. -/
theorem update_status_fallback_truthy_proposal_witness :
    update_status [c5row] "b.pdf" "COMPLETED" (some "p") =
      ([c5rowDone], "Database updated successfully.") ∧
    c5row ∈ [c5row] ∧ c5row.status = "PROCESSING" := by
  have h := update_status_fallback_truthy_proposal [c5row] "b.pdf" "p" c5row
    (by decide) (by decide) (by decide)
  refine ⟨?_, List.mem_cons_self _ _, rfl⟩
  rw [h.1]
  decide

/-! ## C1: the system prompt is sent, never stored -/

/-- C1 amended. Every reachable persisted history of a session contains no
system message at all (the call_model node prepends the system prompt only
to the local list it sends to the model and its persisted delta is only the
model response), and consequently on every model call, not merely the
first, the history sent to the model is the system prompt prepended to the
stored history. The claimed at-most-once bound holds vacuously; the claimed
persistence at index 0 does not occur. -/
theorem system_prompt_never_persisted (s : List Msg) (h : StoredReachable s) :
    s.filter isSystemMessage = [] ∧
    sentMessages s = Msg.system SYSTEM_PROMPT :: s := by
  have hf : s.filter isSystemMessage = [] := by
    induction h with
    | init => rfl
    | userStep s u _hs ih =>
        rw [List.filter_append, ih]
        rfl
    | agentStep s llm _hs ih =>
        rw [List.filter_append, ih]
        rfl
    | toolStep s exec calls _hs ih =>
        rw [List.filter_append, ih, List.nil_append]
        refine List.filter_eq_nil_iff.mpr ?_
        intro m hm
        rcases List.mem_map.mp hm with ⟨tc, _htc, rfl⟩
        simp [isSystemMessage]
  refine ⟨hf, ?_⟩
  cases s with
  | nil => rfl
  | cons m rest =>
      have hm : isSystemMessage m = false := by
        cases hb : isSystemMessage m with
        | false => rfl
        | true =>
            rw [List.filter_cons, hb] at hf
            simp at hf
      rw [sentMessages, hm]
      simp

/-- C1 witness: the invariant at the empty initial history. -/
theorem system_prompt_never_persisted_witness :
    ([] : List Msg).filter isSystemMessage = [] ∧
    sentMessages [] = Msg.system SYSTEM_PROMPT :: [] :=
  system_prompt_never_persisted [] StoredReachable.init

/-- Stored history after a complete first turn: the merged user message,
then the agent node delta for a model response with no tool calls. -/
def c1TurnHistory : List Msg :=
  let s1 := ([] : List Msg) ++ [Msg.user "hi"]
  s1 ++ call_model (fun _ => { content := "hello", tool_calls := [] }) s1

/-- C1 counterexample. The stored history of a completed first turn is
reachable and consists of the user message and the assistant answer only:
it contains zero system messages, not one, refuting the claim that the
system instruction is persisted at position 0 on the first call. -/
theorem system_prompt_not_stored_counterexample :
    StoredReachable c1TurnHistory ∧
    c1TurnHistory = [Msg.user "hi", Msg.assistant "hello" []] ∧
    (c1TurnHistory.filter isSystemMessage).length = 0 ∧
    (c1TurnHistory.filter isSystemMessage).length ≠ 1 := by
  refine ⟨?_, rfl, rfl, by decide⟩
  exact StoredReachable.agentStep _ _ (StoredReachable.userStep [] "hi" StoredReachable.init)

/-! ## C2: loop exit discipline -/

/-- While every response carries tool calls, the loop keeps iterating: n
rounds of fuel never suffice when the first n responses all request
tools. -/
theorem agentLoop_no_exit (responses : Nat → AIMessage) (exec : ToolCall → String) :
    ∀ (n i : Nat) (s : List Msg),
      (∀ j, j < n → ((responses (i + j)).tool_calls.isEmpty) = false) →
      agentLoop responses exec n i s = none := by
  intro n
  induction n with
  | zero => intro i s _h; rfl
  | succ n ih =>
      intro i s h
      have h0 : ((responses i).tool_calls.isEmpty) = false := by
        have := h 0 (Nat.succ_pos n)
        simpa using this
      simp only [agentLoop, h0, Bool.false_eq_true, if_false]
      refine ih (i + 1) _ ?_
      intro j hj
      have := h (j + 1) (Nat.succ_lt_succ hj)
      have harith : i + (j + 1) = i + 1 + j := by omega
      rwa [harith] at this

/-- When exactly the first n responses request tools and response n is
plain text, any fuel above n makes the loop exit normally at round n with
the accumulated history. -/
theorem agentLoop_exit (responses : Nat → AIMessage) (exec : ToolCall → String) :
    ∀ (n fuel i : Nat) (s : List Msg), n < fuel →
      (∀ j, j < n → ((responses (i + j)).tool_calls.isEmpty) = false) →
      (responses (i + n)).tool_calls = [] →
      agentLoop responses exec fuel i s =
        some (s ++ roundsHistory responses exec i n ++
          [Msg.assistant (responses (i + n)).content (responses (i + n)).tool_calls]) := by
  intro n
  induction n with
  | zero =>
      intro fuel i s hf _h hstop
      cases fuel with
      | zero => omega
      | succ fuel =>
          have h0 : ((responses i).tool_calls.isEmpty) = true := by
            have : (responses (i + 0)).tool_calls = [] := hstop
            rw [Nat.add_zero] at this
            rw [this]
            rfl
          simp only [agentLoop, h0, if_true, roundsHistory, Nat.add_zero,
            List.append_nil]
  | succ n ih =>
      intro fuel i s hf h hstop
      cases fuel with
      | zero => omega
      | succ fuel =>
          have h0 : ((responses i).tool_calls.isEmpty) = false := by
            have := h 0 (Nat.succ_pos n)
            simpa using this
          simp only [agentLoop, h0, Bool.false_eq_true, if_false]
          have hsh : ∀ j, j < n → ((responses (i + 1 + j)).tool_calls.isEmpty) = false := by
            intro j hj
            have := h (j + 1) (Nat.succ_lt_succ hj)
            have harith : i + (j + 1) = i + 1 + j := by omega
            rwa [harith] at this
          have hstopsh : (responses (i + 1 + n)).tool_calls = [] := by
            have harith : i + (n + 1) = i + 1 + n := by omega
            rwa [harith] at hstop
          rw [ih fuel (i + 1) _ (by omega) hsh hstopsh]
          have harith : i + 1 + n = i + (n + 1) := by omega
          rw [harith]
          simp only [roundsHistory, List.append_assoc]

/-- C2. For every sequence of model responses, the orchestration loop exits
normally exactly at the first response with no tool calls: while the first n
responses all request tools, fuel n is insufficient (so no fixed iteration
bound exists), and as soon as the n-th response is plain text the loop
returns the history of n tool rounds followed by that final assistant
message, under any larger fuel. -/
theorem agent_loop_exits_at_first_plain_response (responses : Nat → AIMessage)
    (exec : ToolCall → String) (s : List Msg) (n : Nat)
    (hbefore : ∀ j, j < n → ((responses j).tool_calls.isEmpty) = false)
    (hstop : (responses n).tool_calls = []) :
    (∀ fuel, n < fuel →
        agentLoop responses exec fuel 0 s =
          some (s ++ roundsHistory responses exec 0 n ++
            [Msg.assistant (responses n).content []])) ∧
    agentLoop responses exec n 0 s = none := by
  constructor
  · intro fuel hfl
    have h := agentLoop_exit responses exec n fuel 0 s hfl
      (by intro j hj; simpa using hbefore j hj)
      (by simpa using hstop)
    rw [h]
    have hz : (0 : Nat) + n = n := by omega
    rw [hz, hstop]
  · exact agentLoop_no_exit responses exec n 0 s
      (by intro j hj; simpa using hbefore j hj)

/-- Model responses of the C2 witness run: one tool round, then text. -/
def c2Responses : Nat → AIMessage := fun i =>
  if i < 1 then { content := "", tool_calls := [{ id := "c1", name := "web_search", args := "q" }] }
  else { content := "done", tool_calls := [] }

/-- Tool executor of the C2 witness run. -/
def c2Exec : ToolCall → String := fun _ => "result"

/-- C2 witness: with one tool-calling response followed by a plain
response, fuel 2 exits with the four-message delta and fuel 1 does not
exit. -/
theorem agent_loop_exits_witness :
    agentLoop c2Responses c2Exec 2 0 [] =
      some [Msg.assistant "" [{ id := "c1", name := "web_search", args := "q" }],
        Msg.tool "c1" "result", Msg.assistant "done" []] ∧
    agentLoop c2Responses c2Exec 1 0 [] = none := by
  have h := agent_loop_exits_at_first_plain_response c2Responses c2Exec [] 1
    (by
      intro j hj
      have hj0 : j = 0 := by omega
      subst hj0
      decide)
    (by decide)
  refine ⟨?_, h.2⟩
  have h2 := h.1 2 (by omega)
  rw [h2]
  decide

/-! ## C3: tool failures are returned as text -/

/-- C3. Every enumerated business-logic failure inside a tool is returned
as ordinary result text describing the failure. The tools have type String
in this embedding precisely because every raising operation they perform
(each an Except-valued oracle) is matched and converted to text, so no
tool-level failure can escape as an exception and abort the turn: a missing
file and a parse failure in read_file, a missing API key and a raising
search in web_search, a raising disk write in save_proposal, and a missing
markdown file, a raising conversion pipeline or a nonzero pisa error
counter in convert_to_pdf all produce result text. -/
theorem tool_failures_returned_in_band (env : ToolEnv) (f q p : String) :
    (env.fileExists (pathJoin DATA_DIR f) = false →
        read_file env f = "Error: File not found at " ++ pathJoin DATA_DIR f) ∧
    (∀ e, env.fileExists (pathJoin DATA_DIR f) = true →
        env.pdfParse (pathJoin DATA_DIR f) = .error e →
        read_file env f = "Error parsing PDF: " ++ e) ∧
    (pyTruthy env.tavilyKey = false →
        web_search env q = "Error: TAVILY_API_KEY is missing or invalid.") ∧
    (∀ e, pyTruthy env.tavilyKey = true → env.search q = .error e →
        web_search env q = "Search Error: " ++ e) ∧
    (∀ e, env.diskWrite (pathJoin DATA_DIR (save_disk_filename f)) p = .error e →
        save_proposal env f p = "Error saving file to disk: " ++ e) ∧
    (env.fileExists (convert_md_path f) = false →
        convert_to_pdf env f = "Error: Markdown file " ++ convert_md_path f ++
          " not found. Ensure save_proposal was called first.") ∧
    (∀ e, env.fileExists (convert_md_path f) = true →
        convertBody env (convert_md_path f) (convert_to_pdf_base f) = .error e →
        convert_to_pdf env f = "Unexpected Error during PDF conversion: " ++ e) ∧
    (∀ c, env.fileExists (convert_md_path f) = true → c ≠ 0 →
        convertBody env (convert_md_path f) (convert_to_pdf_base f) = .ok
          ("Error generating PDF: " ++ toString c) →
        convert_to_pdf env f = "Error generating PDF: " ++ toString c) := by
  refine ⟨?_, ?_, ?_, ?_, ?_, ?_, ?_, ?_⟩
  · intro hex
    unfold read_file
    cases env.addProject f <;> simp [parse_pdf_to_markdown, hex]
  · intro e hex hparse
    unfold read_file
    cases env.addProject f <;> simp [parse_pdf_to_markdown, hex, hparse]
  · intro hkey
    simp [web_search, hkey]
  · intro e hkey hsearch
    simp [web_search, hkey, hsearch]
  · intro e hdisk
    simp [save_proposal, hdisk]
  · intro hex
    simp [convert_to_pdf, hex]
  · intro e hex hbody
    simp [convert_to_pdf, hex, hbody]
  · intro c hex _hc hbody
    simp [convert_to_pdf, hex, hbody]

/-- Environment of the C3 witness: every oracle fails. -/
def c3Env : ToolEnv :=
  { fileExists := fun _ => false
    pdfParse := fun _ => .error "boom"
    addProject := fun _ => .error "db down"
    tavilyKey := none
    search := fun _ => .error "timeout"
    diskWrite := fun _ _ => .error "disk full"
    readFile := fun _ => .error "gone"
    render := fun s => .ok s
    pisaCreate := fun _ => .ok 0
    db := [] }

/-- C3 witness: the failure texts at a concrete all-failing environment. -/
theorem tool_failures_returned_in_band_witness :
    read_file c3Env "a.pdf" = "Error: File not found at " ++ pathJoin DATA_DIR "a.pdf" ∧
    web_search c3Env "q" = "Error: TAVILY_API_KEY is missing or invalid." ∧
    save_proposal c3Env "a.pdf" "text" = "Error saving file to disk: disk full" ∧
    convert_to_pdf c3Env "a.pdf" = "Error: Markdown file " ++ convert_md_path "a.pdf" ++
      " not found. Ensure save_proposal was called first." := by
  have h := tool_failures_returned_in_band c3Env "a.pdf" "q" "text"
  exact ⟨h.1 rfl, h.2.2.1 rfl, h.2.2.2.2.1 "disk full" rfl, h.2.2.2.2.2.1 rfl⟩

/-! ## C6: shape of the caller-facing stream -/

/-- Lines produced for a single graph event carry type agent or tool. -/
theorem eventLines_type (ev : GraphEvent) :
    ∀ l ∈ eventLines ev, l.type = "agent" ∨ l.type = "tool" := by
  intro l hl
  cases ev with
  | chatModelStream chunk =>
      cases chunk with
      | none => cases hl
      | some c =>
          simp only [eventLines] at hl
          split at hl
          · cases hl
          · rw [List.mem_singleton] at hl
            subst hl
            exact Or.inl rfl
  | toolStart name =>
      simp only [eventLines] at hl
      split at hl
      · rw [List.mem_singleton] at hl
        subst hl
        exact Or.inr rfl
      · cases hl
  | otherEvent => cases hl

/-- No event line is an error line. -/
theorem eventLines_no_error (ev : GraphEvent) :
    (eventLines ev).filter (fun l => l.type == "error") = [] := by
  refine List.filter_eq_nil_iff.mpr ?_
  intro l hl
  rcases eventLines_type ev l hl with h | h <;> simp [h]

/-- The event part of the stream contains no error line. -/
theorem flatten_eventLines_no_error (events : List GraphEvent) :
    ((events.map eventLines).flatten.filter (fun l => l.type == "error")) = [] := by
  induction events with
  | nil => rfl
  | cons ev evs ih =>
      simp only [List.map_cons, List.flatten_cons, List.filter_append,
        eventLines_no_error, ih, List.nil_append]

/-- C6. Every unit the stream emits is one serialized JSON object followed
by a newline whose type field is agent, tool or error and whose content
field is a string (NDJsonLine carries exactly those two string fields), and
at most one error line is emitted per request: error lines come only from
the single except handler that terminates the generator. -/
theorem stream_lines_shape_and_single_error (events : List GraphEvent)
    (exn : Option String) :
    (∀ l ∈ event_generator events exn,
        l.type = "agent" ∨ l.type = "tool" ∨ l.type = "error") ∧
    ((event_generator events exn).filter (fun l => l.type == "error")).length ≤ 1 := by
  constructor
  · intro l hl
    unfold event_generator at hl
    rcases List.mem_append.mp hl with h | h
    · rcases List.mem_flatten.mp h with ⟨ls, hls, hmem⟩
      rcases List.mem_map.mp hls with ⟨ev, _hev, rfl⟩
      rcases eventLines_type ev l hmem with h1 | h1
      · exact Or.inl h1
      · exact Or.inr (Or.inl h1)
    · cases exn with
      | none => cases h
      | some e =>
          rw [List.mem_singleton] at h
          subst h
          exact Or.inr (Or.inr rfl)
  · unfold event_generator
    rw [List.filter_append, flatten_eventLines_no_error, List.nil_append]
    cases exn with
    | none => decide
    | some e => simp

/-! ## C10: download endpoint traversal safety -/

/-- A string containing no occurrence of ".." is not the string "..". -/
theorem ne_dotdot_of_not_contains (f : String) (h : strContains f ".." = false) :
    f ≠ ".." := by
  intro hf
  subst hf
  exact absurd h (by decide)

/-- C10. The download endpoint rejects any filename containing ".." or "/"
with 400 before consulting the filesystem (the outcome is the same for
every existence oracle); any other filename yields 404 when absent; and a
served path is always the data directory extended by the single requested
component, whose POSIX resolution stays inside the resolved data
directory. -/
theorem download_file_traversal_safety (dataDir : List String)
    (pathExists : List String → Bool) (filename : String) :
    ((strContains filename ".." || strContains filename "/") = true →
        ∀ pe2 : List String → Bool, download_file dataDir pe2 filename = .badRequest) ∧
    ((strContains filename ".." || strContains filename "/") = false →
        pathExists (dataDir ++ [filename]) = false →
        download_file dataDir pathExists filename = .notFound) ∧
    (∀ p, download_file dataDir pathExists filename = .file p →
        p = dataDir ++ [filename] ∧
        (resolveComponents dataDir) <+: (resolveComponents p)) := by
  refine ⟨?_, ?_, ?_⟩
  · intro hc pe2
    simp [download_file, hc]
  · intro hc hex
    simp only [Bool.or_eq_false_iff] at hc
    simp [download_file, hc.1, hc.2, hex]
  · intro p hp
    simp only [download_file] at hp
    split at hp
    · cases hp
    · next hcond =>
        split at hp
        · cases hp
        · injection hp with hp
          subst hp
          refine ⟨rfl, ?_⟩
          have hc : (strContains filename ".." || strContains filename "/") = false := by
            cases h : (strContains filename ".." || strContains filename "/") with
            | false => rfl
            | true => exact absurd h hcond
          simp only [Bool.or_eq_false_iff] at hc
          have hne2 : filename ≠ ".." := ne_dotdot_of_not_contains filename hc.1
          unfold resolveComponents
          rw [List.foldl_append]
          simp only [List.foldl_cons, List.foldl_nil]
          by_cases h1 : filename = "."
          · rw [if_pos h1]
          · rw [if_neg h1, if_neg hne2]
            exact List.prefix_append _ _

/-! ## Remaining witnesses at concrete inputs -/

/-- C7 witness: a concrete discovery failure. -/
theorem startup_fails_without_tool_provider_witness :
    initialize_agent none (.error "connection refused") = .error "connection refused" ∧
    lifespan_startup none (.error "connection refused") = .error "connection refused" :=
  startup_fails_without_tool_provider "connection refused"

/-- Request of the C4 witness. -/
def c4raw : RawChatRequest :=
  { message := some (.str "hi"), session_id := some (.str "s1") }

/-- C4 witness: run-state independence and no busy rejection at a concrete
request. -/
theorem chat_turns_never_rejected_as_busy_witness :
    chat_endpoint c4raw (fun _ => RunState.idle) [] none =
      chat_endpoint c4raw (fun _ => RunState.running) [] none ∧
    chat_endpoint c4raw (fun _ => RunState.idle) [] none ≠ .sessionBusy :=
  chat_turns_never_rejected_as_busy c4raw (fun _ => RunState.idle)
    (fun _ => RunState.running) [] none

/-- C6 witness: the error-line bound at a concrete stream. -/
theorem stream_lines_shape_and_single_error_witness :
    ((event_generator [GraphEvent.toolStart "web_search"] (some "boom")).filter
        (fun l => l.type == "error")).length ≤ 1 :=
  (stream_lines_shape_and_single_error [GraphEvent.toolStart "web_search"] (some "boom")).2

/-- C9 witness: the normalization agreement at a concrete filename. -/
theorem proposal_name_normalization_agreement_witness :
    convert_to_pdf_base "a.pdf" = save_proposal_base "a.pdf" ∧
    convert_md_path "a.pdf" = pathJoin DATA_DIR (save_disk_filename "a.pdf") ∧
    convert_md_not_found (fsAfterSave (fun _ => false) "a.pdf") "a.pdf" = false :=
  proposal_name_normalization_agreement "a.pdf" (fun _ => false)

/-- C10 witness: the three outcomes and the containment at concrete
inputs. -/
theorem download_file_traversal_safety_witness :
    download_file ["data"] (fun _ => true) "a.pdf" = .file ["data", "a.pdf"] ∧
    download_file ["data"] (fun _ => false) "a.pdf" = .notFound ∧
    download_file ["data"] (fun _ => true) "../secret" = .badRequest ∧
    (["data", "a.pdf"] : List String) = ["data"] ++ ["a.pdf"] ∧
    resolveComponents ["data"] <+: resolveComponents ["data", "a.pdf"] := by
  have h1 := (download_file_traversal_safety ["data"] (fun _ => true) "../secret").1
    (by decide) (fun _ => true)
  have h2 := (download_file_traversal_safety ["data"] (fun _ => false) "a.pdf").2.1
    (by decide) rfl
  have h3 := (download_file_traversal_safety ["data"] (fun _ => true) "a.pdf").2.2
    ["data", "a.pdf"] (by decide)
  exact ⟨by decide, h2, h1, h3.1, h3.2⟩
